import Mathlib

/-!
Verification of the attendance-tracking application's Student/Assistant
record services against their natural-language specification.

The JavaScript request handlers are shallowly embedded as pure Lean
functions over an explicit database state.  JavaScript values that may be
`undefined`/`null` are modelled with `Option`; JavaScript string
truthiness (`""` is falsy) and number truthiness (`0` is falsy) are
modelled explicitly where the handlers rely on them.  MongoDB collections
are modelled as lists; `updateOne` updates the first matching document,
`insertOne` appends, `deleteMany` filters.
-/

namespace Pages2

/-- One weekly record of a student (`weeks` array element). -/
structure WeekRecord where
  week : Int
  attended : Bool
  lastAttendance : Option String
  lastAttendanceCenter : Option String
  hwDone : Bool
  paidSession : Bool
  quizDegree : Option String
  message_state : Bool
deriving Repr, DecidableEq

/-- The zeroed week record built by the create and reset handlers for
week number `i` (`{week: i, attended: false, lastAttendance: null, ...}`). -/
def zeroWeek (i : Int) : WeekRecord :=
  { week := i, attended := false, lastAttendance := none
    lastAttendanceCenter := none, hwDone := false, paidSession := false
    quizDegree := none, message_state := false }

/-- The 20 zeroed week records pushed by the `for (let i = 1; i <= 20; i++)`
loops of the create handler and the reset handler. -/
def resetWeeks : List WeekRecord :=
  (List.range 20).map (fun i => zeroWeek ((i : Int) + 1))

/-- A stored student document.  `weeks` is `Option` because the handlers
guard on `student.weeks` being present (`!student.weeks`,
`student.weeks ? ... : default`).  `center` is only ever read, never
written, by the embedded handlers. -/
structure Student where
  id : Int
  name : String
  age : Int
  grade : String
  school : String
  phone : String
  parentsPhone : String
  main_center : String
  center : Option String
  weeks : Option (List WeekRecord)
deriving Repr, DecidableEq

/-- A history document: `{studentId, week}` (the "simplified history
record" inserted by the attend handler). -/
structure HistoryRecord where
  studentId : Int
  week : Int
deriving Repr, DecidableEq

/-- The student-side database state: the `students` collection and the
`history` collection, each modelled as a list in insertion order. -/
structure Db where
  students : List Student
  history : List HistoryRecord
deriving Repr, DecidableEq

/-! ## JavaScript-semantics helpers -/

/-- JavaScript string truthiness of a possibly-absent string:
`undefined`, `null` and `""` are falsy. -/
def truthyStr : Option String → Bool
  | none => false
  | some s => s ≠ ""

/-- JavaScript `x || null` for a possibly-absent string: a falsy value
(absent or `""`) becomes `null`. -/
def jsOrNullStr (o : Option String) : Option String :=
  if truthyStr o then o else none

/-- JavaScript `attendanceWeek || 1`: an absent (or numerically falsy,
i.e. `0`) week defaults to `1`. -/
def jsWeekNumber : Option Int → Int
  | none => 1
  | some v => if v = 0 then 1 else v

/-- JavaScript `String(n).padStart(2, '0')`: pad the decimal rendering on
the left with `'0'` up to length 2. -/
def padStart2 (s : String) : String :=
  if s.length < 2 then String.mk (List.replicate (2 - s.length) '0') ++ s else s

/-- JavaScript `s.includes(sub)`: substring containment, as list-infix on
the character data. -/
def jsIncludes (s sub : String) : Bool :=
  decide (sub.data <:+: s.data)

/-- `updateOne`-style modification: apply `f` to the first student whose
`id` matches, leave everything else unchanged. -/
def updateFirstStudent (sid : Int) (f : Student → Student) :
    List Student → List Student
  | [] => []
  | s :: rest =>
    if s.id = sid then f s :: rest else s :: updateFirstStudent sid f rest

/-- `findOne({id})`: the first student whose `id` matches. -/
def findStudent (l : List Student) (sid : Int) : Option Student :=
  l.find? (fun s => s.id = sid)

/-! ## Create handler (`POST /api/students`) -/

/-- Request body of the create handler. Each profile field may be absent;
`age` is a number checked only against `undefined`. -/
structure CreateBody where
  name : Option String
  grade : Option String
  phone : Option String
  parents_phone : Option String
  main_center : Option String
  age : Option Int
  school : Option String
deriving Repr, DecidableEq

/-- The validation test of the create handler:
`!name || !grade || !phone || !parents_phone || !main_center ||
age === undefined || !school`. -/
def createBodyInvalid (b : CreateBody) : Bool :=
  !truthyStr b.name || !truthyStr b.grade || !truthyStr b.phone ||
  !truthyStr b.parents_phone || !truthyStr b.main_center ||
  b.age.isNone || !truthyStr b.school

/-- Maximum stored student id of a non-empty collection (what
`find().sort({id: -1}).limit(1)` retrieves); `0` for the empty list,
which the handler never consults. -/
def maxStudentId : List Student → Int
  | [] => 0
  | s :: rest => rest.foldl (fun acc t => max acc t.id) s.id

/-- Result of a handler call: HTTP status plus the database afterwards.
The JSON payloads are recovered separately by the view functions. -/
structure HandlerResult where
  status : Nat
  db : Db
deriving Repr, DecidableEq

/-- The id the create handler assigns:
`lastStudent.length > 0 ? lastStudent[0].id + 1 : 1`. -/
def newStudentId (students : List Student) : Int :=
  match students with
  | [] => 1
  | l => maxStudentId l + 1

/-- The create handler (`POST` branch): validate the body, assign
`max id + 1`, build 20 zeroed weeks, insert the new document. -/
def createStudent (db : Db) (b : CreateBody) : HandlerResult × Option Int :=
  if createBodyInvalid b then ({ status := 400, db := db }, none)
  else
    let nid := newStudentId db.students
    let s : Student :=
      { id := nid, name := b.name.getD "", age := b.age.getD 0
        grade := b.grade.getD "", school := b.school.getD ""
        phone := b.phone.getD "", parentsPhone := b.parents_phone.getD ""
        main_center := b.main_center.getD "", center := none
        weeks := some resetWeeks }
    ({ status := 200, db := { db with students := db.students ++ [s] } }, some nid)

/-! ## Reset handler (`POST /api/students/[id]/reset`) -/

/-- The reset handler: look the student up; rewrite its `weeks` with the
20 zeroed records. -/
def resetStudent (db : Db) (sid : Int) : HandlerResult :=
  match findStudent db.students sid with
  | none => { status := 404, db := db }
  | some _ =>
    { status := 200
      db := { db with
        students := updateFirstStudent sid
          (fun s => { s with weeks := some resetWeeks }) db.students } }

/-! ## Attend handler (`POST /api/students/[id]/attend`) -/

/-- Request body of the toggle-attendance handler. -/
structure AttendBody where
  attended : Bool
  lastAttendance : Option String
  lastAttendanceCenter : Option String
  attendanceWeek : Option Int
deriving Repr, DecidableEq

/-- `const weekNumber = attendanceWeek || 1`. -/
def resolvedWeekNumber (b : AttendBody) : Int :=
  jsWeekNumber b.attendanceWeek

/-- `const weekIndex = weekNumber - 1`. -/
def resolvedWeekIndex (b : AttendBody) : Int :=
  resolvedWeekNumber b - 1

/-- The attended-branch week mutation: `$set` of `attended`,
`lastAttendance || null` and `lastAttendanceCenter || null`. -/
def markAttended (b : AttendBody) (w : WeekRecord) : WeekRecord :=
  { w with
    attended := true
    lastAttendance := jsOrNullStr b.lastAttendance
    lastAttendanceCenter := jsOrNullStr b.lastAttendanceCenter }

/-- The unattended-branch week mutation: clear attendance and reset
`hwDone`, `paidSession`, `quizDegree`, `message_state`. -/
def markUnattended (w : WeekRecord) : WeekRecord :=
  { w with
    attended := false
    lastAttendance := none
    lastAttendanceCenter := none
    hwDone := false
    paidSession := false
    quizDegree := none
    message_state := false }

/-- The toggle-attendance handler.  The bounds test is the source's
`!student.weeks || student.weeks.length <= weekIndex` (no lower bound); a
negative index slips past it and makes the MongoDB `$set` on path
`weeks.<negative>` throw, which the catch-all maps to 500. -/
def attendStudent (db : Db) (sid : Int) (b : AttendBody) : HandlerResult :=
  match findStudent db.students sid with
  | none => { status := 404, db := db }
  | some s =>
    let weekNumber := resolvedWeekNumber b
    let weekIndex := resolvedWeekIndex b
    match s.weeks with
    | none => { status := 400, db := db }
    | some ws =>
      if (ws.length : Int) ≤ weekIndex then { status := 400, db := db }
      else if weekIndex < 0 then { status := 500, db := db }
      else if b.attended then
        -- `findOne({id})` and `updateOne({id})` both target the first
        -- matching document, so the `$set` paths `weeks.<i>.*` rewrite
        -- the fields of `ws[i]` in place.
        let students' := updateFirstStudent sid
          (fun t => { t with weeks := some (ws.modify (markAttended b) weekIndex.toNat) })
          db.students
        { status := 200
          db := { students := students'
                  history := db.history ++ [{ studentId := s.id, week := weekNumber }] } }
      else
        let students' := updateFirstStudent sid
          (fun t => { t with weeks := some (ws.modify markUnattended weekIndex.toNat) })
          db.students
        { status := 200
          db := { students := students'
                  history := db.history.filter
                    (fun h => !(h.studentId = sid && h.week = weekNumber)) } }

/-! ## Derived current-week view (`GET /api/students`, `GET /api/students/[id]`) -/

/-- The handlers' current-week selection on a present `weeks` array:
`student.weeks.find(w => w.attended) || student.weeks[0]`.  `none` models
the `undefined` that an empty array produces (the handler then crashes on
`currentWeek.attended`, surfacing as 500). -/
def currentWeekOfList (ws : List WeekRecord) : Option WeekRecord :=
  match ws.find? (fun w => w.attended) with
  | some w => some w
  | none => ws.head?

/-- The full current-week selection, including the
`student.weeks ? ... : {week: 1, attended: false, ...}` default taken
when `weeks` is absent. -/
def currentWeekOfStudent (weeks : Option (List WeekRecord)) : Option WeekRecord :=
  match weeks with
  | none => some (zeroWeek 1)
  | some ws => currentWeekOfList ws

/-- `"week " + String(currentWeek.week).padStart(2, '0')`. -/
def attendanceWeekLabel (w : Int) : String :=
  "week " ++ padStart2 (toString w)

/-- The flattened per-student row produced by the list and get handlers. -/
structure StudentView where
  id : Int
  name : String
  grade : String
  phone : String
  parents_phone : String
  center : Option String
  main_center : String
  attended_the_session : Bool
  lastAttendance : Option String
  lastAttendanceCenter : Option String
  attendanceWeek : String
  hwDone : Bool
  paidSession : Bool
  quizDegree : Option String
  school : Option String
  age : Option Int
  message_state : Bool
  weeks : List WeekRecord
deriving Repr, DecidableEq

/-- The `GET /api/students` mapping of one stored student (the
`mappedStudents` body).  `none` models the crash on an empty `weeks`
array. -/
def mapStudent (s : Student) : Option StudentView :=
  (currentWeekOfStudent s.weeks).map (fun cw =>
    { id := s.id, name := s.name, grade := s.grade, phone := s.phone
      parents_phone := s.parentsPhone, center := s.center
      main_center := s.main_center
      attended_the_session := cw.attended
      lastAttendance := cw.lastAttendance
      lastAttendanceCenter := cw.lastAttendanceCenter
      attendanceWeek := attendanceWeekLabel cw.week
      hwDone := cw.hwDone, paidSession := cw.paidSession
      quizDegree := cw.quizDegree
      school := if s.school = "" then none else some s.school
      age := if s.age = 0 then none else some s.age
      message_state := cw.message_state
      weeks := s.weeks.getD [] })

/-- One attempt of the get handler's date regex (two digits, a dash or
slash separator, two digits, a separator, four digits, with capture
groups around each digit run) at a fixed position of the character
list. -/
def tryDateAt : List Char → Option (String × String × String)
  | a :: b :: s1 :: c :: d :: s2 :: e :: f :: g :: h :: _ =>
    if a.isDigit && b.isDigit && (s1 = '-' || s1 = '/') &&
       c.isDigit && d.isDigit && (s2 = '-' || s2 = '/') &&
       e.isDigit && f.isDigit && g.isDigit && h.isDigit then
      some (String.mk [a, b], String.mk [c, d], String.mk [e, f, g, h])
    else none
  | _ => none

/-- Leftmost match of the date regex, as `String.match` finds it. -/
def findDateMatch : List Char → Option (String × String × String)
  | [] => none
  | c :: rest =>
    match tryDateAt (c :: rest) with
    | some m => some m
    | none => findDateMatch rest

/-- The get handler's `lastAttendance` enrichment: when both the date and
the center are truthy, reformat the matched date with `/` separators and
append `" in " + center`. -/
def enrichLastAttendance (lastAtt lastCenter : Option String) : Option String :=
  if truthyStr lastAtt && truthyStr lastCenter then
    let la := lastAtt.getD ""
    let dateStr :=
      match findDateMatch la.data with
      | some (d, m, y) => d ++ "/" ++ m ++ "/" ++ y
      | none => la
    some (dateStr ++ " in " ++ lastCenter.getD "")
  else lastAtt

/-- The `GET /api/students/[id]` response for a found student: the same
flattening as the list handler, except that `lastAttendance` is enriched
with the reformatted date and the center name. -/
def getStudentView (s : Student) : Option StudentView :=
  (currentWeekOfStudent s.weeks).map (fun cw =>
    { id := s.id, name := s.name, grade := s.grade, phone := s.phone
      parents_phone := s.parentsPhone, center := s.center
      main_center := s.main_center
      attended_the_session := cw.attended
      lastAttendance := enrichLastAttendance cw.lastAttendance cw.lastAttendanceCenter
      lastAttendanceCenter := cw.lastAttendanceCenter
      attendanceWeek := attendanceWeekLabel cw.week
      hwDone := cw.hwDone, paidSession := cw.paidSession
      quizDegree := cw.quizDegree
      school := if s.school = "" then none else some s.school
      age := if s.age = 0 then none else some s.age
      message_state := cw.message_state
      weeks := s.weeks.getD [] })

/-! ## Update handler (`PUT /api/students/[id]`) -/

/-- Request body of the partial-update handler.  `none` models a field
that is `undefined` or `null` (both are skipped by the source's
`!== undefined && !== null` tests); `some s` is any supplied string,
including `""`. -/
structure UpdateBody where
  name : Option String
  grade : Option String
  phone : Option String
  parents_phone : Option String
  main_center : Option String
  age : Option Int
  school : Option String
deriving Repr, DecidableEq

/-- Whether the built `update` object has no keys: every field of the
body was `undefined` or `null`. -/
def updateBodyEmpty (b : UpdateBody) : Bool :=
  b.name.isNone && b.grade.isNone && b.phone.isNone &&
  b.parents_phone.isNone && b.main_center.isNone && b.age.isNone &&
  b.school.isNone

/-- Apply the built `update` object to a stored student (`$set` of the
supplied fields). -/
def applyUpdate (b : UpdateBody) (s : Student) : Student :=
  { s with
    name := b.name.getD s.name
    grade := b.grade.getD s.grade
    phone := b.phone.getD s.phone
    parentsPhone := b.parents_phone.getD s.parentsPhone
    main_center := b.main_center.getD s.main_center
    age := b.age.getD s.age
    school := b.school.getD s.school }

/-- The `PUT /api/students/[id]` handler: reject an empty changeset with
400, otherwise `$set` the supplied fields on the first matching student
(404 when none matches). -/
def updateStudent (db : Db) (sid : Int) (b : UpdateBody) : HandlerResult :=
  if updateBodyEmpty b then { status := 400, db := db }
  else
    match findStudent db.students sid with
    | none => { status := 404, db := db }
    | some _ =>
      { status := 200
        db := { db with
          students := updateFirstStudent sid (applyUpdate b) db.students } }

/-! ## History read handler (`GET /api/history`) -/

/-- One enriched, denormalized history row. -/
structure EnrichedRecord where
  studentId : Int
  week : Int
  main_center : String
  center : String
  attendanceDate : String
  hwDone : Bool
  paidSession : Bool
  quizDegree : Option String
  message_state : Bool
deriving Repr, DecidableEq

/-- One per-student group of the history response. -/
structure HistGroup where
  id : Int
  name : String
  grade : String
  school : String
  phone : String
  parentsPhone : String
  historyRecords : List EnrichedRecord
deriving Repr, DecidableEq

/-- `studentMap.get(id)` where the map was filled by iterating the
students in order: the LAST student with the given id wins. -/
def mapLookup (l : List Student) (sid : Int) : Option Student :=
  l.foldl (fun acc s => if s.id = sid then some s else acc) none

/-- `student.weeks && student.weeks[record.week - 1]`, `null` when the
array is absent or the index misses (including negative indices). -/
def weekDataOf (s : Student) (idx : Int) : Option WeekRecord :=
  match s.weeks with
  | none => none
  | some ws => if idx < 0 then none else ws.get? idx.toNat

/-- JavaScript `x || 'n/a'` on a nullable string field. -/
def orNA (o : Option String) : String :=
  match o with
  | none => "n/a"
  | some s => if s = "" then "n/a" else s

/-- Build the enriched record from a history row, its student and the
joined week data. -/
def mkEnriched (r : HistoryRecord) (s : Student) (wd : WeekRecord) :
    EnrichedRecord :=
  { studentId := r.studentId
    week := r.week
    main_center := orNA (some s.main_center)
    center := orNA wd.lastAttendanceCenter
    attendanceDate := orNA wd.lastAttendance
    hwDone := wd.hwDone
    paidSession := wd.paidSession
    quizDegree := jsOrNullStr wd.quizDegree
    message_state := wd.message_state }

/-- Join one history record against the student map: `none` when the
student is missing, the week data is missing, or the week is not
attended (the record is then silently dropped). -/
def enrichOne (students : List Student) (r : HistoryRecord) :
    Option (Student × EnrichedRecord) :=
  match mapLookup students r.studentId with
  | none => none
  | some s =>
    match weekDataOf s (r.week - 1) with
    | none => none
    | some wd =>
      if wd.attended then some (s, mkEnriched r s wd) else none

/-- `studentHistoryMap` update: push the enriched record onto the group
keyed by the record's `studentId`, creating the group (with the
student's profile header) at the end on first sight. -/
def pushRecord (sid : Int) (s : Student) (e : EnrichedRecord) :
    List HistGroup → List HistGroup
  | [] => [{ id := s.id, name := s.name, grade := s.grade
             school := s.school, phone := s.phone
             parentsPhone := s.parentsPhone, historyRecords := [e] }]
  | g :: gs =>
    if g.id = sid then
      { g with historyRecords := g.historyRecords ++ [e] } :: gs
    else g :: pushRecord sid s e gs

/-- The fold over `historyRecords` that fills `studentHistoryMap`. -/
def buildGroups (students : List Student) (records : List HistoryRecord) :
    List HistGroup :=
  records.foldl
    (fun gs r =>
      match enrichOne students r with
      | none => gs
      | some (s, e) => pushRecord r.studentId s e gs)
    []

/-- Ascending-id insertion of one group. -/
def insertById (g : HistGroup) : List HistGroup → List HistGroup
  | [] => [g]
  | h :: t => if g.id ≤ h.id then g :: h :: t else h :: insertById g t

/-- Ascending-id insertion sort.  The groups carry pairwise distinct ids
(the map is keyed by `studentId`), so this is exactly the source's
`sort((a, b) => a.id - b.id)`. -/
def sortById : List HistGroup → List HistGroup
  | [] => []
  | g :: gs => insertById g (sortById gs)

/-- The `GET /api/history` handler body: group the joined rows per
student, then sort the groups by ascending student id. -/
def getHistory (db : Db) : List HistGroup :=
  sortById (buildGroups db.students db.history)

/-! ## Assistant record service -/

/-- A stored assistant document. -/
structure Assistant where
  id : String
  name : String
  phone : String
  password : String
  role : String
deriving Repr, DecidableEq

/-- The password-free projection returned by
`GET /api/assistants/[id]`. -/
structure AssistantView where
  id : String
  name : String
  phone : String
  role : String
deriving Repr, DecidableEq

/-- `GET /api/assistants`: `res.json(assistants)` returns the stored
documents unprojected — including the `password` field. -/
def getAllAssistants (assistants : List Assistant) : List Assistant :=
  assistants

/-- `GET /api/assistants/[id]`: look the assistant up and return only
`{id, name, phone, role}`. -/
def getAssistantById (assistants : List Assistant) (aid : String) :
    Option AssistantView :=
  (assistants.find? (fun a => a.id = aid)).map
    (fun a => { id := a.id, name := a.name, phone := a.phone, role := a.role })

/-- Request body of `POST /api/assistants`. -/
structure AssistantBody where
  id : Option String
  name : Option String
  phone : Option String
  password : Option String
  role : Option String
deriving Repr, DecidableEq

/-- `POST /api/assistants`: validate, reject a duplicate id with 409,
hash the password with `bcrypt.hash` (abstracted as `hash`) and insert.
Returns the status and the collection afterwards. -/
def createAssistant (hash : String → String) (assistants : List Assistant)
    (b : AssistantBody) : Nat × List Assistant :=
  if !truthyStr b.id || !truthyStr b.name || !truthyStr b.phone ||
     !truthyStr b.password || !truthyStr b.role then
    (400, assistants)
  else if (assistants.find? (fun a => a.id = b.id.getD "")).isSome then
    (409, assistants)
  else
    (200, assistants ++
      [{ id := b.id.getD "", name := b.name.getD "", phone := b.phone.getD ""
         password := hash (b.password.getD ""), role := b.role.getD "" }])

/-! ## Auth gate -/

/-- The shape of a request's `Authorization` header: absent, present but
not of the `Bearer ` form, or carrying a token string. -/
inductive AuthInput where
  | noHeader
  | notBearer (header : String)
  | bearerToken (token : String)
deriving Repr, DecidableEq

/-- Outcome of `jwt.verify`: decoded claims carrying a role, or a
failure with the library's error message (such as `"invalid signature"`
or `"jwt expired"`). -/
inductive VerifyOutcome where
  | ok (role : String)
  | fail (msg : String)
deriving Repr, DecidableEq

/-- The student handlers' `authMiddleware`: missing or non-Bearer header
throws `'Unauthorized - No Bearer token'`; a verification failure is
rethrown wrapped as `'Invalid token - ' + error.message`. -/
def authMiddleware (verify : String → VerifyOutcome) :
    AuthInput → Except String String
  | .noHeader => .error "Unauthorized - No Bearer token"
  | .notBearer _ => .error "Unauthorized - No Bearer token"
  | .bearerToken t =>
    match verify t with
    | .ok role => .ok role
    | .fail m => .error ("Invalid token - " ++ m)

/-- The assistants handlers' `requireAdmin`: missing or non-Bearer header
throws `'Unauthorized'`; a verification failure is rethrown UNCHANGED
(the `catch (error) { throw error }`); a non-admin role throws
`'Forbidden: Admins only'`. -/
def requireAdmin (verify : String → VerifyOutcome) :
    AuthInput → Except String String
  | .noHeader => .error "Unauthorized"
  | .notBearer _ => .error "Unauthorized"
  | .bearerToken t =>
    match verify t with
    | .ok role => if role ≠ "admin" then .error "Forbidden: Admins only" else .ok role
    | .fail m => .error m

/-- Status produced by the student handlers' catch clause for an auth
failure (`none` when authentication succeeded and the handler proceeds):
401 when the message contains `'Unauthorized'` or `'Invalid token'`,
otherwise 500. -/
def studentAuthStatus (verify : String → VerifyOutcome) (a : AuthInput) :
    Option Nat :=
  match authMiddleware verify a with
  | .ok _ => none
  | .error m =>
    some (if jsIncludes m "Unauthorized" || jsIncludes m "Invalid token"
          then 401 else 500)

/-- Status produced by the assistants handlers' catch clause for an auth
failure: 401 only when the message IS `'Unauthorized'`, 403 when it is
`'Forbidden: Admins only'`, otherwise 500. -/
def assistantsAuthStatus (verify : String → VerifyOutcome) (a : AuthInput) :
    Option Nat :=
  match requireAdmin verify a with
  | .ok _ => none
  | .error m =>
    some (if m = "Unauthorized" then 401
          else if m = "Forbidden: Admins only" then 403 else 500)

/-! ## Homework / payment / quiz update operations

The server handlers for these operations are not among the provided
source files — only their presentation-layer callers are (`scan_page.jsx`
sends `{hwDone, week}`, `{paidSession, week}` and `{quizDegree, week}`
bodies).  They are modelled from the spec below. -/

/-- Modelled from the spec: the homework update handler (its source file
is missing from the repository snapshot; only its caller in
`scan_page.jsx` is present). Per §4.3, it sets `hwDone` on the
WeekRecord at the given week index; the service does NOT verify that the
student is attended for that week. -/
def updateHomework (db : Db) (sid : Int) (week : Int) (hw : Bool) : Db :=
  match findStudent db.students sid with
  | none => db
  | some s =>
    match s.weeks with
    | none => db
    | some ws =>
      let idx := week - 1
      if idx < 0 || (ws.length : Int) ≤ idx then db
      else
        let students' := updateFirstStudent sid
          (fun t => { t with
            weeks := some (ws.modify (fun w => { w with hwDone := hw }) idx.toNat) })
          db.students
        { db with students := students' }

/-- Modelled from the spec: the payment update handler (source file
missing; caller in `scan_page.jsx`).  Sets `paidSession` at the given
week index, with no attendance check. -/
def updatePayment (db : Db) (sid : Int) (week : Int) (paid : Bool) : Db :=
  match findStudent db.students sid with
  | none => db
  | some s =>
    match s.weeks with
    | none => db
    | some ws =>
      let idx := week - 1
      if idx < 0 || (ws.length : Int) ≤ idx then db
      else
        let students' := updateFirstStudent sid
          (fun t => { t with
            weeks := some (ws.modify (fun w => { w with paidSession := paid }) idx.toNat) })
          db.students
        { db with students := students' }

/-- Modelled from the spec: the quiz-grade update handler (source file
missing; caller in `scan_page.jsx`).  Sets `quizDegree` at the given
week index, with no attendance check. -/
def updateQuizGrade (db : Db) (sid : Int) (week : Int) (deg : Option String) : Db :=
  match findStudent db.students sid with
  | none => db
  | some s =>
    match s.weeks with
    | none => db
    | some ws =>
      let idx := week - 1
      if idx < 0 || (ws.length : Int) ≤ idx then db
      else
        let students' := updateFirstStudent sid
          (fun t => { t with
            weeks := some (ws.modify (fun w => { w with quizDegree := deg }) idx.toNat) })
          db.students
        { db with students := students' }

/-! ## Service operations as a step function -/

/-- One Student Record Service mutation. -/
inductive Op where
  | create (b : CreateBody)
  | reset (sid : Int)
  | attend (sid : Int) (b : AttendBody)
  | homework (sid : Int) (week : Int) (hw : Bool)
  | payment (sid : Int) (week : Int) (paid : Bool)
  | quiz (sid : Int) (week : Int) (deg : Option String)
deriving Repr, DecidableEq

/-- The database after one operation (responses discarded). -/
def step (db : Db) : Op → Db
  | .create b => (createStudent db b).1.db
  | .reset sid => (resetStudent db sid).db
  | .attend sid b => (attendStudent db sid b).db
  | .homework sid week hw => updateHomework db sid week hw
  | .payment sid week paid => updatePayment db sid week paid
  | .quiz sid week deg => updateQuizGrade db sid week deg

/-- The database after a sequence of operations. -/
def run (db : Db) (ops : List Op) : Db :=
  ops.foldl step db

/-- An operation that is a create, reset or toggle-attendance call (the
operations that touch the attendance fields themselves). -/
def Op.isCoreOp : Op → Bool
  | .create _ => true
  | .reset _ => true
  | .attend _ _ => true
  | _ => false

/-- The per-week unset invariant: a week that was not attended has
`hwDone = false`, `paidSession = false` and `quizDegree = null`. -/
def weekInv (w : WeekRecord) : Prop :=
  w.attended = false → w.hwDone = false ∧ w.paidSession = false ∧ w.quizDegree = none

/-- The database-wide invariant: every week of every student satisfies
`weekInv`. -/
def dbInv (db : Db) : Prop :=
  ∀ s ∈ db.students, ∀ ws, s.weeks = some ws → ∀ w ∈ ws, weekInv w

instance : DecidablePred weekInv := fun w => by
  unfold weekInv; infer_instance

/-! ## General lemmas about the embedding -/

lemma mem_updateFirstStudent {sid : Int} {f : Student → Student}
    {l : List Student} {a : Student} (h : a ∈ updateFirstStudent sid f l) :
    a ∈ l ∨ ∃ b ∈ l, a = f b := by
  induction l with
  | nil => simp [updateFirstStudent] at h
  | cons s rest ih =>
    rw [updateFirstStudent] at h
    split at h
    · rcases List.mem_cons.mp h with h | h
      · exact Or.inr ⟨s, List.mem_cons_self s rest, h⟩
      · exact Or.inl (List.mem_cons_of_mem s h)
    · rcases List.mem_cons.mp h with h | h
      · exact Or.inl (h ▸ List.mem_cons_self s rest)
      · rcases ih h with h' | ⟨b, hb, hab⟩
        · exact Or.inl (List.mem_cons_of_mem s h')
        · exact Or.inr ⟨b, List.mem_cons_of_mem s hb, hab⟩

lemma findStudent_updateFirstStudent {sid : Int} {f : Student → Student}
    (hf : ∀ t, (f t).id = t.id) (l : List Student) :
    findStudent (updateFirstStudent sid f l) sid = (findStudent l sid).map f := by
  induction l with
  | nil => simp [findStudent, updateFirstStudent]
  | cons s rest ih =>
    rw [updateFirstStudent]
    by_cases hs : s.id = sid
    · simp [findStudent, List.find?_cons, hs, hf]
    · simp only [if_neg hs]
      simpa [findStudent, List.find?_cons, hs] using ih

lemma findStudent_id {l : List Student} {sid : Int} {s : Student}
    (h : findStudent l sid = some s) : s.id = sid := by
  have := List.find?_some h
  simpa using this

lemma findStudent_mem {l : List Student} {sid : Int} {s : Student}
    (h : findStudent l sid = some s) : s ∈ l :=
  List.mem_of_find?_eq_some h

lemma mem_modify {f : WeekRecord → WeekRecord} {i : Nat}
    {l : List WeekRecord} {a : WeekRecord} (h : a ∈ l.modify f i) :
    a ∈ l ∨ ∃ b ∈ l, a = f b := by
  rcases List.mem_iff_getElem?.mp h with ⟨j, hj⟩
  rw [List.getElem?_modify] at hj
  cases hl : l[j]? with
  | none => rw [hl] at hj; simp at hj
  | some b =>
    rw [hl] at hj
    simp only [Option.map_eq_map, Option.map_some, Option.some.injEq] at hj
    have hbmem : b ∈ l := List.getElem?_mem hl
    by_cases hij : i = j
    · rw [if_pos hij] at hj; exact Or.inr ⟨b, hbmem, hj.symm⟩
    · rw [if_neg hij] at hj; exact Or.inl (hj ▸ hbmem)

lemma le_foldl_max (l : List Student) (init : Int) :
    init ≤ l.foldl (fun acc t => max acc t.id) init := by
  induction l generalizing init with
  | nil => simp
  | cons s rest ih =>
    calc init ≤ max init s.id := le_max_left _ _
    _ ≤ rest.foldl (fun acc t => max acc t.id) (max init s.id) := ih _

lemma mem_le_foldl_max {l : List Student} (init : Int) :
    ∀ t ∈ l, t.id ≤ l.foldl (fun acc t => max acc t.id) init := by
  induction l generalizing init with
  | nil => simp
  | cons s rest ih =>
    intro t ht
    rcases List.mem_cons.mp ht with h | h
    · subst h
      calc t.id ≤ max init t.id := le_max_right _ _
      _ ≤ rest.foldl (fun acc u => max acc u.id) (max init t.id) := le_foldl_max _ _
    · exact ih _ t h

lemma foldl_max_attained (l : List Student) (init : Int) :
    l.foldl (fun acc t => max acc t.id) init = init ∨
      ∃ t ∈ l, l.foldl (fun acc t => max acc t.id) init = t.id := by
  induction l generalizing init with
  | nil => simp
  | cons s rest ih =>
    simp only [List.foldl_cons]
    rcases ih (max init s.id) with h | ⟨t, ht, h⟩
    · rcases max_cases init s.id with ⟨hm, _⟩ | ⟨hm, _⟩
      · exact Or.inl (h.trans hm)
      · exact Or.inr ⟨s, List.mem_cons_self s rest, h.trans hm⟩
    · exact Or.inr ⟨t, List.mem_cons_of_mem s ht, h⟩

lemma mem_le_maxStudentId {l : List Student} : ∀ t ∈ l, t.id ≤ maxStudentId l := by
  intro t ht
  cases l with
  | nil => simp at ht
  | cons s rest =>
    rw [maxStudentId]
    rcases List.mem_cons.mp ht with h | h
    · subst h; exact le_foldl_max rest t.id
    · exact mem_le_foldl_max s.id t h

lemma maxStudentId_attained {l : List Student} (h : l ≠ []) :
    ∃ t ∈ l, t.id = maxStudentId l := by
  cases l with
  | nil => exact absurd rfl h
  | cons s rest =>
    rw [maxStudentId]
    rcases foldl_max_attained rest s.id with h' | ⟨t, ht, h'⟩
    · exact ⟨s, List.mem_cons_self s rest, h'.symm⟩
    · exact ⟨t, List.mem_cons_of_mem s ht, h'.symm⟩

/-! ## C2: create assigns max + 1 and 20 zeroed weeks -/

/-- C2: a create request with all required profile fields present
succeeds, assigns the new student the maximum existing id plus one (the
listed bounds show `maxStudentId` really is the maximum), and appends a
student whose `weeks` are exactly the 20 zeroed records. -/
theorem createStudent_assigns_succ_max_id_and_zeroed_weeks
    (db : Db) (b : CreateBody)
    (hvalid : createBodyInvalid b = false) (hne : db.students ≠ []) :
    ∃ s : Student,
      (createStudent db b).1.status = 200 ∧
      (createStudent db b).1.db.students = db.students ++ [s] ∧
      (createStudent db b).2 = some s.id ∧
      s.id = maxStudentId db.students + 1 ∧
      (∀ t ∈ db.students, t.id ≤ maxStudentId db.students) ∧
      (∃ t ∈ db.students, t.id = maxStudentId db.students) ∧
      s.weeks = some resetWeeks ∧
      resetWeeks.length = 20 ∧
      (∀ w ∈ resetWeeks, w.attended = false ∧ w.lastAttendance = none ∧
        w.lastAttendanceCenter = none ∧ w.hwDone = false ∧
        w.paidSession = false ∧ w.quizDegree = none ∧
        w.message_state = false) := by
  have hid : newStudentId db.students = maxStudentId db.students + 1 := by
    cases h : db.students with
    | nil => exact absurd h hne
    | cons s rest => rfl
  refine ⟨{ id := newStudentId db.students, name := b.name.getD ""
            age := b.age.getD 0, grade := b.grade.getD ""
            school := b.school.getD "", phone := b.phone.getD ""
            parentsPhone := b.parents_phone.getD ""
            main_center := b.main_center.getD "", center := none
            weeks := some resetWeeks },
    ?_, ?_, ?_, hid, mem_le_maxStudentId, maxStudentId_attained hne,
    rfl, by decide, by decide⟩
  · simp [createStudent, hvalid]
  · simp [createStudent, hvalid]
  · simp [createStudent, hvalid]

/-- Example student used by concrete witnesses. -/
def exStudentA : Student :=
  { id := 5, name := "Sara", age := 15, grade := "1st Secondary"
    school := "X", phone := "01000000001", parentsPhone := "01000000002"
    main_center := "Giza", center := none, weeks := some resetWeeks }

/-- Example database with one stored student. -/
def c2Db : Db := { students := [exStudentA], history := [] }

/-- Example valid create body. -/
def c2Body : CreateBody :=
  { name := some "Ali", grade := some "1st Secondary"
    phone := some "01234567891", parents_phone := some "01234567892"
    main_center := some "Giza", age := some 16, school := some "X" }

/-- Witness for C2 at a concrete database and body. -/
theorem createStudent_assigns_succ_max_id_and_zeroed_weeks_witness :
    createBodyInvalid c2Body = false ∧ c2Db.students ≠ [] ∧
      ∃ s : Student,
        (createStudent c2Db c2Body).1.status = 200 ∧
        (createStudent c2Db c2Body).1.db.students = c2Db.students ++ [s] ∧
        (createStudent c2Db c2Body).2 = some s.id ∧
        s.id = maxStudentId c2Db.students + 1 ∧
        (∀ t ∈ c2Db.students, t.id ≤ maxStudentId c2Db.students) ∧
        (∃ t ∈ c2Db.students, t.id = maxStudentId c2Db.students) ∧
        s.weeks = some resetWeeks ∧
        resetWeeks.length = 20 ∧
        (∀ w ∈ resetWeeks, w.attended = false ∧ w.lastAttendance = none ∧
          w.lastAttendanceCenter = none ∧ w.hwDone = false ∧
          w.paidSession = false ∧ w.quizDegree = none ∧
          w.message_state = false) :=
  ⟨by decide, by decide,
    createStudent_assigns_succ_max_id_and_zeroed_weeks c2Db c2Body
      (by decide) (by decide)⟩

/-! ## Shapes of the attend handler's two success branches -/

/-- The modification the attended branch applies to the found student. -/
def attendWeeksOf (b : AttendBody) (ws : List WeekRecord) (t : Student) : Student :=
  { t with weeks := some (ws.modify (markAttended b) (resolvedWeekIndex b).toNat) }

/-- The modification the unattended branch applies to the found student. -/
def unattendWeeksOf (b : AttendBody) (ws : List WeekRecord) (t : Student) : Student :=
  { t with weeks := some (ws.modify markUnattended (resolvedWeekIndex b).toNat) }

lemma attendStudent_true_eq
    {db : Db} {sid : Int} {b : AttendBody} {s : Student} {ws : List WeekRecord}
    (hfind : findStudent db.students sid = some s)
    (hweeks : s.weeks = some ws)
    (hlt : resolvedWeekIndex b < (ws.length : Int))
    (hge : 0 ≤ resolvedWeekIndex b)
    (hatt : b.attended = true) :
    attendStudent db sid b =
      { status := 200
        db := { students := updateFirstStudent sid (attendWeeksOf b ws) db.students
                history := db.history ++
                  [{ studentId := s.id, week := resolvedWeekNumber b }] } } := by
  unfold attendStudent attendWeeksOf
  rw [hfind]
  dsimp only
  rw [hweeks]
  dsimp only
  rw [if_neg (not_le.mpr hlt), if_neg (not_lt.mpr hge), if_pos hatt]

lemma attendStudent_false_eq
    {db : Db} {sid : Int} {b : AttendBody} {s : Student} {ws : List WeekRecord}
    (hfind : findStudent db.students sid = some s)
    (hweeks : s.weeks = some ws)
    (hlt : resolvedWeekIndex b < (ws.length : Int))
    (hge : 0 ≤ resolvedWeekIndex b)
    (hatt : b.attended = false) :
    attendStudent db sid b =
      { status := 200
        db := { students := updateFirstStudent sid (unattendWeeksOf b ws) db.students
                history := db.history.filter
                  (fun h => !(h.studentId = sid && h.week = resolvedWeekNumber b)) } } := by
  unfold attendStudent unattendWeeksOf
  rw [hfind]
  dsimp only
  rw [hweeks]
  dsimp only
  rw [if_neg (not_le.mpr hlt), if_neg (not_lt.mpr hge), if_neg (by simp [hatt])]

/-! ## C10: the attended branch inserts unconditionally -/

/-- C10: with a valid week index, an `attended: true` toggle appends a
history record `{studentId, week}` regardless of the week's current
state (nothing in the hypotheses constrains `ws`); a second identical
call appends a second, duplicate record, so the call is not idempotent
on the history collection. -/
theorem attendStudent_true_inserts_unconditionally
    (db : Db) (sid : Int) (b : AttendBody) (s : Student) (ws : List WeekRecord)
    (hfind : findStudent db.students sid = some s)
    (hweeks : s.weeks = some ws)
    (hlt : resolvedWeekIndex b < (ws.length : Int))
    (hge : 0 ≤ resolvedWeekIndex b)
    (hatt : b.attended = true) :
    (attendStudent db sid b).db.history
      = db.history ++ [{ studentId := s.id, week := resolvedWeekNumber b }] ∧
    (attendStudent (attendStudent db sid b).db sid b).db.history
      = db.history ++ [{ studentId := s.id, week := resolvedWeekNumber b },
                       { studentId := s.id, week := resolvedWeekNumber b }] ∧
    (attendStudent (attendStudent db sid b).db sid b).db
      ≠ (attendStudent db sid b).db := by
  have h1 := attendStudent_true_eq hfind hweeks hlt hge hatt
  set ws2 := ws.modify (markAttended b) (resolvedWeekIndex b).toNat with hws2
  have hfind2 : findStudent (attendStudent db sid b).db.students sid
      = some { s with weeks := some ws2 } := by
    rw [h1]
    show findStudent (updateFirstStudent sid (attendWeeksOf b ws) db.students) sid = _
    rw [findStudent_updateFirstStudent (f := attendWeeksOf b ws) (fun t => rfl), hfind]
    rfl
  have hlen2 : (ws2.length : Int) = (ws.length : Int) := by
    rw [hws2, List.length_modify]
  have h2 := attendStudent_true_eq hfind2 rfl (by rw [hlen2]; exact hlt) hge hatt
  refine ⟨by rw [h1], ?_, ?_⟩
  · rw [h2]
    show (attendStudent db sid b).db.history ++ _ = _
    rw [h1]
    simp
  · intro heq
    have hlenEq := congrArg (fun d => d.history.length) heq
    rw [h2, h1] at hlenEq
    simp at hlenEq

/-- Weeks list with week 3 (index 2) already marked attended. -/
def c10Ws : List WeekRecord :=
  resetWeeks.modify (fun w => { w with attended := true }) 2

/-- Student 1 whose week 3 is already attended. -/
def c10Student : Student :=
  { id := 1, name := "Ali", age := 16, grade := "1st Secondary"
    school := "X", phone := "01234567891", parentsPhone := "01234567892"
    main_center := "Giza", center := none, weeks := some c10Ws }

/-- Database already holding the history record for student 1, week 3. -/
def c10Db : Db :=
  { students := [c10Student], history := [{ studentId := 1, week := 3 }] }

/-- Attend body re-marking week 3 as attended. -/
def c10Body : AttendBody :=
  { attended := true, lastAttendance := some "01/01/2025"
    lastAttendanceCenter := some "Giza", attendanceWeek := some 3 }

/-- Witness for C10: re-attending an already-attended week at a concrete
database appends a duplicate history record. -/
theorem attendStudent_true_inserts_unconditionally_witness :
    findStudent c10Db.students 1 = some c10Student ∧
    c10Student.weeks = some c10Ws ∧
    resolvedWeekIndex c10Body < (c10Ws.length : Int) ∧
    0 ≤ resolvedWeekIndex c10Body ∧
    c10Body.attended = true ∧
    ((attendStudent c10Db 1 c10Body).db.history
        = c10Db.history ++ [{ studentId := c10Student.id, week := resolvedWeekNumber c10Body }] ∧
      (attendStudent (attendStudent c10Db 1 c10Body).db 1 c10Body).db.history
        = c10Db.history ++ [{ studentId := c10Student.id, week := resolvedWeekNumber c10Body },
                            { studentId := c10Student.id, week := resolvedWeekNumber c10Body }] ∧
      (attendStudent (attendStudent c10Db 1 c10Body).db 1 c10Body).db
        ≠ (attendStudent c10Db 1 c10Body).db) :=
  ⟨by decide, by decide, by decide, by decide, by decide,
    attendStudent_true_inserts_unconditionally c10Db 1 c10Body c10Student c10Ws
      (by decide) (by decide) (by decide) (by decide) (by decide)⟩

/-! ## C3: history side-effects of the attendance toggle -/

/-- Student for the C3 counterexample: student 1 with week 3 attended.
With the duplicate history rows below, this state is reachable by
attending week 3 twice (the attend branch inserts unconditionally). -/
def c3Student : Student :=
  { c10Student with
    weeks := some (resetWeeks.modify (fun w => { w with attended := true }) 2) }

/-- Database for the C3 counterexample (two duplicate history rows). -/
def c3Db : Db :=
  { students := [c3Student]
    history := [{ studentId := 1, week := 3 }, { studentId := 1, week := 3 }] }

/-- Unattend body for week 3. -/
def c3Body : AttendBody :=
  { attended := false, lastAttendance := none
    lastAttendanceCenter := none, attendanceWeek := some 3 }

/-- Counterexample to C3 as stated: with two matching history records
present, toggling attendance off for week 3 deletes BOTH
(`deleteMany`), not exactly one — two records present before, zero
after, and the call succeeds. -/
theorem attendStudent_false_deletes_more_than_one :
    c3Db.history.countP (fun h => h.studentId = 1 && h.week = 3) = 2 ∧
    (attendStudent c3Db 1 c3Body).db.history.countP
        (fun h => h.studentId = 1 && h.week = 3) = 0 ∧
    (attendStudent c3Db 1 c3Body).status = 200 := by
  refine ⟨by decide, by decide, by decide⟩

/-- C3 amended: with a valid week index, toggling attendance on inserts
exactly one HistoryRecord `{studentId, week}`; toggling attendance off
removes ALL HistoryRecords matching `{studentId, week}` (not exactly
one), leaving the count of every other `{studentId, week}` key
unchanged. -/
theorem attendStudent_history_insert_one_delete_all
    (db : Db) (sid : Int) (b : AttendBody) (s : Student) (ws : List WeekRecord)
    (hfind : findStudent db.students sid = some s)
    (hweeks : s.weeks = some ws)
    (hlt : resolvedWeekIndex b < (ws.length : Int))
    (hge : 0 ≤ resolvedWeekIndex b) :
    (b.attended = true →
      (attendStudent db sid b).db.history
        = db.history ++ [{ studentId := sid, week := resolvedWeekNumber b }]) ∧
    (b.attended = false →
      (attendStudent db sid b).db.history.countP
          (fun h => h.studentId = sid && h.week = resolvedWeekNumber b) = 0 ∧
      ∀ j w' : Int, ¬(j = sid ∧ w' = resolvedWeekNumber b) →
        (attendStudent db sid b).db.history.countP
            (fun h => h.studentId = j && h.week = w')
          = db.history.countP (fun h => h.studentId = j && h.week = w')) := by
  have hsid : s.id = sid := findStudent_id hfind
  constructor
  · intro hatt
    rw [attendStudent_true_eq hfind hweeks hlt hge hatt, hsid]
  · intro hatt
    rw [attendStudent_false_eq hfind hweeks hlt hge hatt]
    constructor
    · show (db.history.filter _).countP _ = 0
      rw [List.countP_filter]
      rw [List.countP_congr (q := fun _ => false) ?_]
      · simp [List.countP_false]
      · intro h _
        simp only [Bool.and_eq_true, decide_eq_true_eq, Bool.not_eq_true']
        constructor
        · rintro ⟨⟨h1, h2⟩, h3⟩
          simp [h1, h2] at h3
        · intro hfalse
          exact absurd hfalse (by simp)
    · intro j w' hne
      show (db.history.filter _).countP _ = _
      rw [List.countP_filter]
      refine List.countP_congr ?_
      intro h _
      simp only [Bool.and_eq_true, decide_eq_true_eq, Bool.not_eq_true']
      constructor
      · rintro ⟨⟨h1, h2⟩, _⟩
        exact ⟨h1, h2⟩
      · rintro ⟨h1, h2⟩
        refine ⟨⟨h1, h2⟩, ?_⟩
        subst h1 h2
        rcases not_and_or.mp hne with hj | hw
        · simp [hj]
        · simp [hw]

/-- Witness for the amended C3 at a concrete database: attending week 3
of student 1 appends exactly one record; unattending week 3 empties the
matching records while leaving the count of the unrelated key `{2, 5}`
unchanged. -/
theorem attendStudent_history_insert_one_delete_all_witness :
    findStudent c3Db.students 1 = some (c3Student) ∧
    (c3Student).weeks
      = some (resetWeeks.modify (fun w => { w with attended := true }) 2) ∧
    resolvedWeekIndex c3Body < ((resetWeeks.modify (fun w => { w with attended := true }) 2).length : Int) ∧
    0 ≤ resolvedWeekIndex c3Body ∧
    ((c3Body.attended = true →
        (attendStudent c3Db 1 c3Body).db.history
          = c3Db.history ++ [{ studentId := 1, week := resolvedWeekNumber c3Body }]) ∧
      (c3Body.attended = false →
        (attendStudent c3Db 1 c3Body).db.history.countP
            (fun h => h.studentId = 1 && h.week = resolvedWeekNumber c3Body) = 0 ∧
        ∀ j w' : Int, ¬(j = 1 ∧ w' = resolvedWeekNumber c3Body) →
          (attendStudent c3Db 1 c3Body).db.history.countP
              (fun h => h.studentId = j && h.week = w')
            = c3Db.history.countP (fun h => h.studentId = j && h.week = w'))) :=
  ⟨by decide, by decide, by decide, by decide,
    attendStudent_history_insert_one_delete_all c3Db 1 c3Body
      (c3Student)
      (resetWeeks.modify (fun w => { w with attended := true }) 2)
      (by decide) (by decide) (by decide) (by decide)⟩

/-! ## C5: week-index resolution and bounds validation -/

/-- Attend body whose `attendanceWeek` is `-1`: the resolved index `-2`
is outside the bounds of any week sequence. -/
def c5Body : AttendBody :=
  { attended := true, lastAttendance := none
    lastAttendanceCenter := none, attendanceWeek := some (-1) }

/-- Counterexample to C5 as stated: for a student with the full 20-week
sequence and `attendanceWeek = -1`, the resolved index `-2` lies outside
the sequence bounds, yet the handler does NOT fail with 400 — the
`length <= weekIndex` test passes a negative index through and the call
ends in 500. -/
theorem attendStudent_negative_index_not_rejected :
    resolvedWeekIndex c5Body = -2 ∧
    resolvedWeekIndex c5Body < 0 ∧
    (attendStudent c10Db 1 c5Body).status = 500 ∧
    (attendStudent c10Db 1 c5Body).status ≠ 400 := by
  refine ⟨by decide, by decide, by decide, by decide⟩

/-- C5 amended: the week index is resolved as `attendanceWeek − 1`
(week 1 when `attendanceWeek` is absent), and for a found student the
handler fails with 400 exactly when the `weeks` array is missing or its
length is at most the resolved index — the only bound checked is the
upper one, so negative resolved indices are not rejected with 400. -/
theorem attendStudent_week_resolution_and_bounds
    (db : Db) (sid : Int) (b : AttendBody) (s : Student)
    (hfind : findStudent db.students sid = some s) :
    (b.attendanceWeek = none → resolvedWeekIndex b = 0) ∧
    (∀ n : Int, b.attendanceWeek = some n → n ≠ 0 →
      resolvedWeekIndex b = n - 1) ∧
    ((attendStudent db sid b).status = 400 ↔
      (s.weeks = none ∨
        ∃ ws, s.weeks = some ws ∧ (ws.length : Int) ≤ resolvedWeekIndex b)) := by
  refine ⟨?_, ?_, ?_⟩
  · intro h
    simp [resolvedWeekIndex, resolvedWeekNumber, jsWeekNumber, h]
  · intro n h hn
    simp [resolvedWeekIndex, resolvedWeekNumber, jsWeekNumber, h, hn]
  · unfold attendStudent
    rw [hfind]
    dsimp only
    cases hw : s.weeks with
    | none => simp
    | some ws =>
      dsimp only
      by_cases hle : (ws.length : Int) ≤ resolvedWeekIndex b
      · rw [if_pos hle]
        simp [hle]
      · rw [if_neg hle]
        have hright : ¬((some ws : Option (List WeekRecord)) = none ∨
            ∃ ws', (some ws : Option (List WeekRecord)) = some ws' ∧
              (ws'.length : Int) ≤ resolvedWeekIndex b) := by
          rintro (h | ⟨ws', hws', hle'⟩)
          · exact Option.noConfusion h
          · injection hws' with h'
            exact hle (by rw [h']; exact hle')
        by_cases hneg : resolvedWeekIndex b < 0
        · rw [if_pos hneg]
          exact iff_of_false (by simp) hright
        · rw [if_neg hneg]
          by_cases hatt : b.attended = true
          · rw [if_pos hatt]
            exact iff_of_false (by simp) hright
          · rw [if_neg hatt]
            exact iff_of_false (by simp) hright

/-- Attend body for week 25, used by the C5 witness. -/
def c5Body25 : AttendBody :=
  { attended := true, lastAttendance := none
    lastAttendanceCenter := none, attendanceWeek := some 25 }

/-- Witness for the amended C5 at a concrete database: week 25 on a
20-week student resolves to index 24 and is rejected with 400. -/
theorem attendStudent_week_resolution_and_bounds_witness :
    findStudent c10Db.students 1 = some c10Student ∧
    ((c5Body25.attendanceWeek = none → resolvedWeekIndex c5Body25 = 0) ∧
      (∀ n : Int, c5Body25.attendanceWeek = some n → n ≠ 0 →
        resolvedWeekIndex c5Body25 = n - 1) ∧
      ((attendStudent c10Db 1 c5Body25).status = 400 ↔
        (c10Student.weeks = none ∨
          ∃ ws, c10Student.weeks = some ws ∧
            (ws.length : Int) ≤ resolvedWeekIndex c5Body25))) :=
  ⟨by decide,
    attendStudent_week_resolution_and_bounds c10Db 1 c5Body25 c10Student
      (by decide)⟩

/-! ## C6: empty-changeset update -/

/-- Database for the C6 counterexample. -/
def c6Db : Db := { students := [c10Student], history := [] }

/-- Update body whose only supplied field is the EMPTY string `name`. -/
def c6Body : UpdateBody :=
  { name := some "", grade := none, phone := none, parents_phone := none
    main_center := none, age := none, school := none }

/-- Counterexample to C6 as stated: a request in which every supplied
field is empty (here `name = ""`) is NOT rejected — the handler answers
200 and overwrites the stored name with the empty string, modifying the
record. -/
theorem updateStudent_empty_string_applied :
    (updateStudent c6Db 1 c6Body).status = 200 ∧
    (updateStudent c6Db 1 c6Body).db.students.map Student.name = [""] ∧
    (updateStudent c6Db 1 c6Body).db ≠ c6Db := by
  refine ⟨by decide, by decide, by decide⟩

/-- C6 amended: the update fails with 400 exactly when every field of
the body is `undefined` or `null` (a supplied empty string counts as a
value and is applied), and on that failure the database is left
unmodified. -/
theorem updateStudent_400_iff_all_fields_absent
    (db : Db) (sid : Int) (b : UpdateBody) :
    ((updateStudent db sid b).status = 400 ↔ updateBodyEmpty b = true) ∧
    (updateBodyEmpty b = true → (updateStudent db sid b).db = db) := by
  constructor
  · unfold updateStudent
    by_cases he : updateBodyEmpty b = true
    · rw [if_pos he]
      simp [he]
    · rw [if_neg he]
      cases hf : findStudent db.students sid with
      | none => simp [he]
      | some s => simp [he]
  · intro he
    unfold updateStudent
    rw [if_pos he]

/-- All-absent update body, used by the C6 witness. -/
def c6AbsentBody : UpdateBody :=
  { name := none, grade := none, phone := none, parents_phone := none
    main_center := none, age := none, school := none }

/-- Witness for the amended C6: an all-absent body at a concrete
database is rejected with 400 and the database is unchanged. -/
theorem updateStudent_400_iff_all_fields_absent_witness :
    (((updateStudent c6Db 1 c6AbsentBody).status = 400 ↔
        updateBodyEmpty c6AbsentBody = true) ∧
      (updateBodyEmpty c6AbsentBody = true →
        (updateStudent c6Db 1 c6AbsentBody).db = c6Db)) ∧
    updateBodyEmpty c6AbsentBody = true :=
  ⟨updateStudent_400_iff_all_fields_absent c6Db 1 c6AbsentBody, by decide⟩

/-! ## C1: the unattended-week unset invariant -/

lemma resetWeeks_weekInv : ∀ w ∈ resetWeeks, weekInv w := by decide

lemma dbInv_createStudent (db : Db) (b : CreateBody) (h : dbInv db) :
    dbInv (createStudent db b).1.db := by
  unfold createStudent
  by_cases hv : createBodyInvalid b = true
  · rw [if_pos hv]; exact h
  · rw [if_neg hv]
    intro s hs ws hws w hw
    dsimp only at hs
    rcases List.mem_append.mp hs with hmem | hmem
    · exact h s hmem ws hws w hw
    · rcases List.mem_singleton.mp hmem with rfl
      injection hws with h'
      exact resetWeeks_weekInv w (h' ▸ hw)

lemma dbInv_resetStudent (db : Db) (sid : Int) (h : dbInv db) :
    dbInv (resetStudent db sid).db := by
  unfold resetStudent
  cases hf : findStudent db.students sid with
  | none => exact h
  | some s0 =>
    intro s hs ws hws w hw
    dsimp only at hs
    rcases mem_updateFirstStudent hs with hmem | ⟨t, ht, rfl⟩
    · exact h s hmem ws hws w hw
    · injection hws with h'
      exact resetWeeks_weekInv w (h' ▸ hw)

lemma weekInv_markAttended (b : AttendBody) (w : WeekRecord) :
    weekInv (markAttended b w) := by
  intro hfalse
  simp [markAttended] at hfalse

lemma weekInv_markUnattended (w : WeekRecord) : weekInv (markUnattended w) := by
  intro _
  exact ⟨rfl, rfl, rfl⟩

lemma dbInv_attendStudent (db : Db) (sid : Int) (b : AttendBody) (h : dbInv db) :
    dbInv (attendStudent db sid b).db := by
  unfold attendStudent
  cases hf : findStudent db.students sid with
  | none => exact h
  | some s =>
    dsimp only
    cases hw : s.weeks with
    | none => exact h
    | some ws =>
      dsimp only
      by_cases h1 : (ws.length : Int) ≤ resolvedWeekIndex b
      · rw [if_pos h1]; exact h
      · rw [if_neg h1]
        by_cases h2 : resolvedWeekIndex b < 0
        · rw [if_pos h2]; exact h
        · rw [if_neg h2]
          by_cases h3 : b.attended = true
          · rw [if_pos h3]
            intro t ht ws' hws' w hwmem
            dsimp only at ht
            rcases mem_updateFirstStudent ht with hmem | ⟨u, hu, rfl⟩
            · exact h t hmem ws' hws' w hwmem
            · injection hws' with h'
              subst h'
              rcases mem_modify hwmem with hmem2 | ⟨v, _, rfl⟩
              · exact h s (findStudent_mem hf) ws hw w hmem2
              · exact weekInv_markAttended b v
          · rw [if_neg h3]
            intro t ht ws' hws' w hwmem
            dsimp only at ht
            rcases mem_updateFirstStudent ht with hmem | ⟨u, hu, rfl⟩
            · exact h t hmem ws' hws' w hwmem
            · injection hws' with h'
              subst h'
              rcases mem_modify hwmem with hmem2 | ⟨v, _, rfl⟩
              · exact h s (findStudent_mem hf) ws hw w hmem2
              · exact weekInv_markUnattended v

lemma dbInv_step (db : Db) (op : Op) (hcore : op.isCoreOp = true)
    (h : dbInv db) : dbInv (step db op) := by
  cases op with
  | create b => exact dbInv_createStudent db b h
  | reset sid => exact dbInv_resetStudent db sid h
  | attend sid b => exact dbInv_attendStudent db sid b h
  | homework sid week hw => simp [Op.isCoreOp] at hcore
  | payment sid week paid => simp [Op.isCoreOp] at hcore
  | quiz sid week deg => simp [Op.isCoreOp] at hcore

/-- C1 amended: after any sequence of create, reset and toggle-attendance
operations from a state satisfying the unset invariant, every week of
every student with `attended = false` still has `hwDone = false`,
`paidSession = false` and `quizDegree = null`.  (The homework, payment
and quiz update operations are NOT in this preserved set — see the
counterexample.) -/
theorem run_core_ops_preserve_unattended_invariant
    (db : Db) (ops : List Op) (hops : ∀ op ∈ ops, op.isCoreOp = true)
    (h : dbInv db) : dbInv (run db ops) := by
  induction ops generalizing db with
  | nil => exact h
  | cons op rest ih =>
    have hstep := dbInv_step db op (hops op (List.mem_cons_self op rest)) h
    exact ih (step db op)
      (fun o ho => hops o (List.mem_cons_of_mem op ho)) hstep

/-- The week record stored at index 0 after the violating sequence. -/
def c1ViolatingWeek : WeekRecord :=
  { week := 1, attended := false, lastAttendance := none
    lastAttendanceCenter := none, hwDone := true, paidSession := false
    quizDegree := none, message_state := false }

/-- The student document stored after the violating sequence: the create
handler's record with `hwDone` set on week index 0. -/
def c1FinalStudent : Student :=
  { id := 1, name := "Ali", age := 16, grade := "1st Secondary"
    school := "X", phone := "01234567891", parentsPhone := "01234567892"
    main_center := "Giza", center := none
    weeks := some (resetWeeks.modify (fun w => { w with hwDone := true }) 0) }

/-- Counterexample to C1 as stated: starting from the empty store, the
service sequence [create student; homework-update week 1 := done]
(the homework update is modelled from the spec, which says it does not
check attendance) yields a stored student whose week 1 has
`attended = false` AND `hwDone = true`, violating the claimed
invariant. -/
theorem homework_update_breaks_unattended_invariant :
    (run { students := [], history := [] }
        [Op.create c2Body, Op.homework 1 1 true]).students.map
      (fun s => (s.weeks.getD []).get? 0) = [some c1ViolatingWeek] ∧
    c1ViolatingWeek.attended = false ∧
    c1ViolatingWeek.hwDone = true ∧
    ¬ weekInv c1ViolatingWeek ∧
    ¬ dbInv (run { students := [], history := [] }
        [Op.create c2Body, Op.homework 1 1 true]) := by
  refine ⟨by decide, by decide, by decide, by decide, ?_⟩
  intro hinv
  have hmem : c1FinalStudent ∈ (run { students := [], history := [] }
      [Op.create c2Body, Op.homework 1 1 true]).students := by decide
  have hweek : c1ViolatingWeek ∈
      resetWeeks.modify (fun w => { w with hwDone := true }) 0 := by decide
  have := hinv c1FinalStudent hmem _ rfl c1ViolatingWeek hweek
  exact absurd this (by decide)

/-- Witness for the amended C1: a concrete core-only sequence (create,
attend week 3, reset) preserves the invariant from the empty store. -/
theorem run_core_ops_preserve_unattended_invariant_witness :
    (∀ op ∈ [Op.create c2Body, Op.attend 1 c10Body, Op.reset 1],
      op.isCoreOp = true) ∧
    dbInv { students := [], history := [] } ∧
    dbInv (run { students := [], history := [] }
      [Op.create c2Body, Op.attend 1 c10Body, Op.reset 1]) := by
  have hops : ∀ op ∈ [Op.create c2Body, Op.attend 1 c10Body, Op.reset 1],
      op.isCoreOp = true := by decide
  have hinv : dbInv { students := [], history := [] } := by
    intro s hs
    simp at hs
  exact ⟨hops, hinv,
    run_core_ops_preserve_unattended_invariant _ _ hops hinv⟩

/-! ## C4: history rows only for currently attended weeks -/

/-- An enriched row joins to a currently attended week: its student is
found in the map and the WeekRecord at `week - 1` exists with
`attended = true`. -/
def attendedJoin (students : List Student) (r : EnrichedRecord) : Prop :=
  ∃ s, mapLookup students r.studentId = some s ∧
    ∃ wd, weekDataOf s (r.week - 1) = some wd ∧ wd.attended = true

lemma enrichOne_spec {students : List Student} {r : HistoryRecord}
    {s : Student} {e : EnrichedRecord}
    (h : enrichOne students r = some (s, e)) :
    mapLookup students r.studentId = some s ∧
      (∃ wd, weekDataOf s (r.week - 1) = some wd ∧ wd.attended = true) ∧
      e.studentId = r.studentId ∧ e.week = r.week := by
  unfold enrichOne at h
  cases hm : mapLookup students r.studentId with
  | none => rw [hm] at h; exact Option.noConfusion h
  | some s0 =>
    rw [hm] at h
    dsimp only at h
    cases hw : weekDataOf s0 (r.week - 1) with
    | none => rw [hw] at h; exact Option.noConfusion h
    | some wd =>
      rw [hw] at h
      dsimp only at h
      by_cases ha : wd.attended = true
      · rw [if_pos ha] at h
        injection h with h'
        simp only [Prod.mk.injEq] at h'
        obtain ⟨rfl, rfl⟩ := h'
        exact ⟨rfl, ⟨wd, hw, ha⟩, rfl, rfl⟩
      · rw [if_neg ha] at h
        exact Option.noConfusion h

lemma mem_insertById {g a : HistGroup} {l : List HistGroup}
    (h : a ∈ insertById g l) : a = g ∨ a ∈ l := by
  induction l with
  | nil => simp [insertById] at h; exact Or.inl h
  | cons x t ih =>
    rw [insertById] at h
    split at h
    · rcases List.mem_cons.mp h with h | h
      · exact Or.inl h
      · exact Or.inr h
    · rcases List.mem_cons.mp h with h | h
      · exact Or.inr (h ▸ List.mem_cons_self x t)
      · rcases ih h with h | h
        · exact Or.inl h
        · exact Or.inr (List.mem_cons_of_mem x h)

lemma mem_sortById {a : HistGroup} {l : List HistGroup}
    (h : a ∈ sortById l) : a ∈ l := by
  induction l with
  | nil => simp [sortById] at h
  | cons x t ih =>
    rw [sortById] at h
    rcases mem_insertById h with h | h
    · exact h ▸ List.mem_cons_self x t
    · exact List.mem_cons_of_mem x (ih h)

lemma mem_pushRecord {students : List Student} {sid : Int} {s : Student}
    {e : EnrichedRecord} {gs : List HistGroup}
    (hgs : ∀ g ∈ gs, ∀ r ∈ g.historyRecords, attendedJoin students r)
    (he : attendedJoin students e) :
    ∀ g ∈ pushRecord sid s e gs, ∀ r ∈ g.historyRecords, attendedJoin students r := by
  induction gs with
  | nil =>
    intro g hg r hr
    rw [pushRecord] at hg
    rcases List.mem_singleton.mp hg with rfl
    rcases List.mem_singleton.mp hr with rfl
    exact he
  | cons x t ih =>
    intro g hg r hr
    rw [pushRecord] at hg
    split at hg
    · rcases List.mem_cons.mp hg with hg | hg
      · subst hg
        rcases List.mem_append.mp hr with hr | hr
        · exact hgs x (List.mem_cons_self x t) r hr
        · rcases List.mem_singleton.mp hr with rfl
          exact he
      · exact hgs g (List.mem_cons_of_mem x hg) r hr
    · rcases List.mem_cons.mp hg with hg | hg
      · subst hg
        exact hgs g (List.mem_cons_self g t) r hr
      · exact ih (fun g' hg' => hgs g' (List.mem_cons_of_mem x hg')) g hg r hr

lemma buildGroups_aux {students : List Student}
    (records : List HistoryRecord) (gs : List HistGroup)
    (hgs : ∀ g ∈ gs, ∀ r ∈ g.historyRecords, attendedJoin students r) :
    ∀ g ∈ records.foldl
        (fun gs r =>
          match enrichOne students r with
          | none => gs
          | some (s, e) => pushRecord r.studentId s e gs)
        gs,
      ∀ r ∈ g.historyRecords, attendedJoin students r := by
  induction records generalizing gs with
  | nil => exact hgs
  | cons rec rest ih =>
    intro g hg
    rw [List.foldl_cons] at hg
    cases he : enrichOne students rec with
    | none =>
      rw [he] at hg
      exact ih gs hgs g hg
    | some pair =>
      rw [he] at hg
      obtain ⟨s, e⟩ := pair
      dsimp only at hg
      have hspec := enrichOne_spec he
      have hjoin : attendedJoin students e := by
        obtain ⟨hm, ⟨wd, hwd, ha⟩, hsid, hwk⟩ := hspec
        refine ⟨s, ?_, wd, ?_, ha⟩
        · rw [hsid]; exact hm
        · rw [hwk]; exact hwd
      exact ih (pushRecord rec.studentId s e gs)
        (mem_pushRecord hgs hjoin) g hg

/-- C4: every enriched row produced by the history read joins to a
student whose WeekRecord at the row's week currently has
`attended = true` — a week with `attended = false` (or a missing student
or week) never appears, its records being silently dropped. -/
theorem getHistory_rows_join_attended_weeks
    (db : Db) (g : HistGroup) (r : EnrichedRecord)
    (hg : g ∈ getHistory db) (hr : r ∈ g.historyRecords) :
    ∃ s, mapLookup db.students r.studentId = some s ∧
      ∃ wd, weekDataOf s (r.week - 1) = some wd ∧ wd.attended = true := by
  have hmem : g ∈ buildGroups db.students db.history := mem_sortById hg
  exact buildGroups_aux db.history [] (by intro g' hg'; simp at hg') g hmem r hr

/-- The enriched row the history read produces for student 1, week 3 of
`c3Db`. -/
def c4Record : EnrichedRecord :=
  { studentId := 1, week := 3, main_center := "Giza", center := "n/a"
    attendanceDate := "n/a", hwDone := false, paidSession := false
    quizDegree := none, message_state := false }

/-- The per-student group the history read produces for `c3Db` (two
duplicate rows for week 3). -/
def c4Group : HistGroup :=
  { id := 1, name := "Ali", grade := "1st Secondary", school := "X"
    phone := "01234567891", parentsPhone := "01234567892"
    historyRecords := [c4Record, c4Record] }

/-- Witness for C4 at a concrete database. -/
theorem getHistory_rows_join_attended_weeks_witness :
    c4Group ∈ getHistory c3Db ∧ c4Record ∈ c4Group.historyRecords ∧
    ∃ s, mapLookup c3Db.students c4Record.studentId = some s ∧
      ∃ wd, weekDataOf s (c4Record.week - 1) = some wd ∧ wd.attended = true :=
  ⟨by decide, by decide,
    getHistory_rows_join_attended_weeks c3Db c4Group c4Record
      (by decide) (by decide)⟩

/-! ## C7: the derived current-week view -/

/-- The spec's description of the current-week choice, written as direct
recursion over the week list: the first WeekRecord with
`attended == true`. -/
def firstAttended : List WeekRecord → Option WeekRecord
  | [] => none
  | w :: rest => if w.attended then some w else firstAttended rest

/-- The spec's current-week view: the first attended WeekRecord, else
`WeekRecord[0]`. -/
def specCurrentWeek (ws : List WeekRecord) : Option WeekRecord :=
  match firstAttended ws with
  | some w => some w
  | none => ws.head?

lemma find?_attended_eq_firstAttended (ws : List WeekRecord) :
    ws.find? (fun w => w.attended) = firstAttended ws := by
  induction ws with
  | nil => rfl
  | cons w rest ih =>
    rw [List.find?_cons, firstAttended]
    cases h : w.attended with
    | true => simp [h]
    | false => simp [h, ih]

lemma currentWeekOfList_eq_specCurrentWeek (ws : List WeekRecord) :
    currentWeekOfList ws = specCurrentWeek ws := by
  unfold currentWeekOfList specCurrentWeek
  rw [find?_attended_eq_firstAttended]

/-- The student document created by the spec's example body on the empty
store. -/
def c7FreshStudent : Student :=
  { id := 1, name := "Ali", age := 16, grade := "1st Secondary"
    school := "X", phone := "01234567891", parentsPhone := "01234567892"
    main_center := "Giza", center := none, weeks := some resetWeeks }

/-- The get-handler response for the freshly created example student. -/
def c7FreshView : StudentView :=
  { id := 1, name := "Ali", grade := "1st Secondary", phone := "01234567891"
    parents_phone := "01234567892", center := none, main_center := "Giza"
    attended_the_session := false, lastAttendance := none
    lastAttendanceCenter := none, attendanceWeek := "week 01"
    hwDone := false, paidSession := false, quizDegree := none
    school := some "X", age := some 16, message_state := false
    weeks := resetWeeks }

/-- The current week stored for the enrichment counterexample: week 3
attended, with a stored date and center. -/
def c7EnrichWeek : WeekRecord :=
  { week := 3, attended := true, lastAttendance := some "01-01-2025"
    lastAttendanceCenter := some "Giza", hwDone := false
    paidSession := false, quizDegree := none, message_state := false }

/-- Week list holding `c7EnrichWeek` at index 2. -/
def c7EnrichWs : List WeekRecord := resetWeeks.set 2 c7EnrichWeek

/-- A student whose attended week carries a date and a center. -/
def c7EnrichStudent : Student :=
  { c7FreshStudent with weeks := some c7EnrichWs }

/-- The get-handler (read-one) response for `c7EnrichStudent`. -/
def c7EnrichView : StudentView :=
  { id := 1, name := "Ali", grade := "1st Secondary"
    phone := "01234567891", parents_phone := "01234567892"
    center := none, main_center := "Giza"
    attended_the_session := true
    lastAttendance := some "01/01/2025 in Giza"
    lastAttendanceCenter := some "Giza", attendanceWeek := "week 03"
    hwDone := false, paidSession := false, quizDegree := none
    school := some "X", age := some 16, message_state := false
    weeks := c7EnrichWs }

/-- The list-handler (read-all) view of `c10Student` (week 3 attended,
no stored date/center). -/
def c7MapView : StudentView :=
  { id := 1, name := "Ali", grade := "1st Secondary"
    phone := "01234567891", parents_phone := "01234567892"
    center := none, main_center := "Giza"
    attended_the_session := true, lastAttendance := none
    lastAttendanceCenter := none, attendanceWeek := "week 03"
    hwDone := false, paidSession := false, quizDegree := none
    school := some "X", age := some 16, message_state := false
    weeks := c10Ws }

/-- Counterexample to C7 as stated: the read-ONE handler does not return
the current week's fields plainly flattened — when the current week has
both a date and a center, its `lastAttendance` is rewritten to
`"dd/mm/yyyy in Center"`.  Here the stored value is `"01-01-2025"` but
the read-one response carries `"01/01/2025 in Giza"`. -/
theorem getStudentView_enriches_lastAttendance :
    specCurrentWeek c7EnrichWs = some c7EnrichWeek ∧
    c7EnrichWeek.lastAttendance = some "01-01-2025" ∧
    (getStudentView c7EnrichStudent).map StudentView.lastAttendance
      = some (some "01/01/2025 in Giza") ∧
    (getStudentView c7EnrichStudent).map StudentView.lastAttendance
      ≠ some c7EnrichWeek.lastAttendance := by
  refine ⟨by decide, by decide, by decide, by decide⟩

/-- C7 amended: for BOTH reads the view's fields come from the first
WeekRecord with `attended == true` (else `WeekRecord[0]`) — stated
against `specCurrentWeek`, the spec's description of that choice — with
`attendanceWeek` rendered via the two-digit label.  The read-all
mapping flattens every field plainly; the read-one response flattens
every field EXCEPT `lastAttendance`, which passes through
`enrichLastAttendance` (the plain flattened value whenever the date or
the center is absent/empty, the enriched `"date in center"` string when
both are present).  Reading the freshly created example student returns
`attended_the_session = false` and `attendanceWeek = "week 01"`. -/
theorem studentView_flattens_first_attended_week
    : (∀ (s : Student) (ws : List WeekRecord) (v : StudentView),
        s.weeks = some ws → mapStudent s = some v →
        ∃ cw, specCurrentWeek ws = some cw ∧
          v.attended_the_session = cw.attended ∧
          v.lastAttendance = cw.lastAttendance ∧
          v.lastAttendanceCenter = cw.lastAttendanceCenter ∧
          v.hwDone = cw.hwDone ∧
          v.paidSession = cw.paidSession ∧
          v.quizDegree = cw.quizDegree ∧
          v.message_state = cw.message_state ∧
          v.attendanceWeek = attendanceWeekLabel cw.week) ∧
      (∀ (s : Student) (ws : List WeekRecord) (v : StudentView),
        s.weeks = some ws → getStudentView s = some v →
        ∃ cw, specCurrentWeek ws = some cw ∧
          v.attended_the_session = cw.attended ∧
          v.lastAttendance
            = enrichLastAttendance cw.lastAttendance cw.lastAttendanceCenter ∧
          v.lastAttendanceCenter = cw.lastAttendanceCenter ∧
          v.hwDone = cw.hwDone ∧
          v.paidSession = cw.paidSession ∧
          v.quizDegree = cw.quizDegree ∧
          v.message_state = cw.message_state ∧
          v.attendanceWeek = attendanceWeekLabel cw.week) ∧
      (∀ la lc : Option String, truthyStr la = false ∨ truthyStr lc = false →
        enrichLastAttendance la lc = la) ∧
      (∀ n : Nat, n < 20 →
        attendanceWeekLabel ((n : Int) + 1)
          = "week " ++ padStart2 (toString ((n : Int) + 1)) ∧
        (padStart2 (toString ((n : Int) + 1))).length = 2) ∧
      ((createStudent { students := [], history := [] } c2Body).2 = some 1 ∧
        findStudent (createStudent { students := [], history := [] }
            c2Body).1.db.students 1 = some c7FreshStudent ∧
        getStudentView c7FreshStudent = some c7FreshView ∧
        c7FreshView.attended_the_session = false ∧
        c7FreshView.attendanceWeek = "week 01") := by
  refine ⟨?_, ?_, ?_, by decide, by decide, by decide, by decide, by decide,
    by decide⟩
  · intro s ws v hws hv
    unfold mapStudent currentWeekOfStudent at hv
    rw [hws] at hv
    dsimp only at hv
    rw [currentWeekOfList_eq_specCurrentWeek] at hv
    cases hcw : specCurrentWeek ws with
    | none => rw [hcw] at hv; exact Option.noConfusion hv
    | some cw =>
      rw [hcw] at hv
      dsimp only [Option.map] at hv
      injection hv with hv'
      subst hv'
      exact ⟨cw, rfl, rfl, rfl, rfl, rfl, rfl, rfl, rfl, rfl⟩
  · intro s ws v hws hv
    unfold getStudentView currentWeekOfStudent at hv
    rw [hws] at hv
    dsimp only at hv
    rw [currentWeekOfList_eq_specCurrentWeek] at hv
    cases hcw : specCurrentWeek ws with
    | none => rw [hcw] at hv; exact Option.noConfusion hv
    | some cw =>
      rw [hcw] at hv
      dsimp only [Option.map] at hv
      injection hv with hv'
      subst hv'
      exact ⟨cw, rfl, rfl, rfl, rfl, rfl, rfl, rfl, rfl, rfl⟩
  · intro la lc h
    unfold enrichLastAttendance
    rcases h with h | h
    · simp [h]
    · simp [h]

/-- Witness for the amended C7 at concrete students: the read-all view
of a student with week 3 attended flattens that week plainly, and the
read-one view of a student whose attended week carries a date and a
center flattens every field with `lastAttendance` enriched. -/
theorem studentView_flattens_first_attended_week_witness :
    (c10Student.weeks = some c10Ws ∧
      mapStudent c10Student = some c7MapView) ∧
    (∃ cw, specCurrentWeek c10Ws = some cw ∧
      c7MapView.attended_the_session = cw.attended ∧
      c7MapView.lastAttendance = cw.lastAttendance ∧
      c7MapView.lastAttendanceCenter = cw.lastAttendanceCenter ∧
      c7MapView.hwDone = cw.hwDone ∧
      c7MapView.paidSession = cw.paidSession ∧
      c7MapView.quizDegree = cw.quizDegree ∧
      c7MapView.message_state = cw.message_state ∧
      c7MapView.attendanceWeek = attendanceWeekLabel cw.week) ∧
    (c7EnrichStudent.weeks = some c7EnrichWs ∧
      getStudentView c7EnrichStudent = some c7EnrichView) ∧
    (∃ cw, specCurrentWeek c7EnrichWs = some cw ∧
      c7EnrichView.attended_the_session = cw.attended ∧
      c7EnrichView.lastAttendance
        = enrichLastAttendance cw.lastAttendance cw.lastAttendanceCenter ∧
      c7EnrichView.lastAttendanceCenter = cw.lastAttendanceCenter ∧
      c7EnrichView.hwDone = cw.hwDone ∧
      c7EnrichView.paidSession = cw.paidSession ∧
      c7EnrichView.quizDegree = cw.quizDegree ∧
      c7EnrichView.message_state = cw.message_state ∧
      c7EnrichView.attendanceWeek = attendanceWeekLabel cw.week) :=
  ⟨⟨by decide, by decide⟩,
    studentView_flattens_first_attended_week.1 c10Student c10Ws c7MapView
      (by decide) (by decide),
    ⟨by decide, by decide⟩,
    studentView_flattens_first_attended_week.2.1 c7EnrichStudent c7EnrichWs
      c7EnrichView (by decide) (by decide)⟩

/-! ## C8: password storage and exposure -/

/-- A stored assistant whose password field holds a bcrypt hash. -/
def c8Assistant : Assistant :=
  { id := "u1", name := "Nour", phone := "01000000003"
    password := "hash123", role := "assistant" }

/-- Counterexample to C8 as stated: the read-all handler returns the
stored documents unprojected, so its response DOES include the stored
(hashed) password value. -/
theorem getAllAssistants_exposes_password :
    (getAllAssistants [c8Assistant]).map Assistant.password = ["hash123"] ∧
    c8Assistant.password = "hash123" := by
  refine ⟨rfl, rfl⟩

/-- C8 amended: passwords are hashed before storage (a successful create
stores `hash password`, never the plaintext), and the read-ONE response
is the password-free projection `{id, name, phone, role}`; the read-ALL
response however returns the stored documents verbatim, hashed password
included. -/
theorem assistant_password_hashed_readone_projected
    (hash : String → String) (l : List Assistant) (b : AssistantBody)
    (st : Nat) (l' : List Assistant)
    (hc : createAssistant hash l b = (st, l')) (hok : st = 200) :
    (∃ pw, b.password = some pw ∧
      l' = l ++ [{ id := b.id.getD "", name := b.name.getD ""
                   phone := b.phone.getD "", password := hash pw
                   role := b.role.getD "" }]) ∧
    getAllAssistants l' = l' ∧
    (∀ aid v, getAssistantById l' aid = some v →
      ∃ a, a ∈ l' ∧ a.id = aid ∧
        v = { id := a.id, name := a.name, phone := a.phone, role := a.role }) := by
  refine ⟨?_, rfl, ?_⟩
  · unfold createAssistant at hc
    split at hc
    · rw [hok] at hc
      exact absurd (congrArg Prod.fst hc) (by simp)
    · split at hc
      · rw [hok] at hc
        exact absurd (congrArg Prod.fst hc) (by simp)
      · rename_i hvalid _
        have hpw : truthyStr b.password = true := by
          by_cases h : truthyStr b.password = true
          · exact h
          · exact absurd (by simp [Bool.not_eq_true] at h; simp [h]) hvalid
        cases hbp : b.password with
        | none => rw [hbp] at hpw; exact absurd hpw (by decide)
        | some pw =>
          refine ⟨pw, rfl, ?_⟩
          have h2 := congrArg Prod.snd hc
          dsimp only at h2
          rw [← h2, hbp]
          rfl
  · intro aid v hv
    unfold getAssistantById at hv
    cases hf : l'.find? (fun a => a.id = aid) with
    | none => rw [hf] at hv; exact Option.noConfusion hv
    | some a =>
      rw [hf] at hv
      injection hv with hv'
      refine ⟨a, List.mem_of_find?_eq_some hf, ?_, hv'.symm⟩
      have := List.find?_some hf
      simpa using this

/-- Create body used by the C8 witness. -/
def c8Body : AssistantBody :=
  { id := some "u2", name := some "Nour", phone := some "01000000003"
    password := some "pw", role := some "admin" }

/-- A toy hash function used by the C8 witness (`bcrypt.hash` is
external). -/
def c8Hash (s : String) : String := s ++ "#hashed"

/-- Witness for the amended C8 at a concrete creation. -/
theorem assistant_password_hashed_readone_projected_witness :
    createAssistant c8Hash [] c8Body = (200, (createAssistant c8Hash [] c8Body).2) ∧
    ((∃ pw, c8Body.password = some pw ∧
        (createAssistant c8Hash [] c8Body).2 = [] ++
          [{ id := c8Body.id.getD "", name := c8Body.name.getD ""
             phone := c8Body.phone.getD "", password := c8Hash pw
             role := c8Body.role.getD "" }]) ∧
      getAllAssistants (createAssistant c8Hash [] c8Body).2
        = (createAssistant c8Hash [] c8Body).2 ∧
      (∀ aid v, getAssistantById (createAssistant c8Hash [] c8Body).2 aid = some v →
        ∃ a, a ∈ (createAssistant c8Hash [] c8Body).2 ∧ a.id = aid ∧
          v = { id := a.id, name := a.name, phone := a.phone, role := a.role })) :=
  ⟨by decide,
    assistant_password_hashed_readone_projected c8Hash [] c8Body 200
      (createAssistant c8Hash [] c8Body).2 (by decide) rfl⟩

/-! ## C9: bearer-token verification failures -/

/-- A verifier that fails every token as expired, modelling
`jwt.verify` throwing `TokenExpiredError` (message `"jwt expired"`). -/
def expiredVerify : String → VerifyOutcome :=
  fun _ => VerifyOutcome.fail "jwt expired"

/-- Counterexample to C9 as stated: on the assistants (admin) endpoints
an expired token produces 500, not 401 — `requireAdmin` rethrows the
library error unchanged and the catch clause only maps the exact message
`'Unauthorized'` to 401. -/
theorem assistants_expired_token_gets_500 :
    assistantsAuthStatus expiredVerify (AuthInput.bearerToken "token") = some 500 ∧
    assistantsAuthStatus expiredVerify (AuthInput.bearerToken "token") ≠ some 401 := by
  refine ⟨rfl, by decide⟩

/-- C9 amended: on the student endpoints a failed token verification
(invalid signature or expired) yields 401, because `authMiddleware`
wraps the failure as `'Invalid token - ...'`; on the admin-only
assistants endpoints the same failure yields 500 (401 arises there only
from a missing or malformed header). -/
theorem token_verify_failure_statuses
    (verify : String → VerifyOutcome) (t m : String)
    (hfail : verify t = VerifyOutcome.fail m) :
    studentAuthStatus verify (AuthInput.bearerToken t) = some 401 ∧
    (m ≠ "Unauthorized" → m ≠ "Forbidden: Admins only" →
      assistantsAuthStatus verify (AuthInput.bearerToken t) = some 500) := by
  constructor
  · unfold studentAuthStatus authMiddleware
    dsimp only
    rw [hfail]
    dsimp only
    have hincl : jsIncludes ("Invalid token - " ++ m) "Invalid token" = true := by
      unfold jsIncludes
      rw [decide_eq_true_eq, String.data_append]
      have h1 : ("Invalid token").data <+: ("Invalid token - ").data :=
        ⟨(" - ").data, by decide⟩
      exact (h1.trans (List.prefix_append _ _)).isInfix
    rw [hincl]
    simp
  · intro h1 h2
    unfold assistantsAuthStatus requireAdmin
    dsimp only
    rw [hfail]
    dsimp only
    rw [if_neg h1, if_neg h2]

/-- Witness for the amended C9 with a concrete failing verifier. -/
theorem token_verify_failure_statuses_witness :
    expiredVerify "t" = VerifyOutcome.fail "jwt expired" ∧
    (studentAuthStatus expiredVerify (AuthInput.bearerToken "t") = some 401 ∧
      ("jwt expired" ≠ "Unauthorized" → "jwt expired" ≠ "Forbidden: Admins only" →
        assistantsAuthStatus expiredVerify (AuthInput.bearerToken "t") = some 500)) :=
  ⟨rfl, token_verify_failure_statuses expiredVerify "t" "jwt expired" rfl⟩

end Pages2
